import Mathlib

/-!
Verification of the streaming chat session engine (frontend/actions/useChat.ts,
persistent-socket variant, together with the chunked-HTTP variant and the
MessageList display gate). Text is modelled as `List Char`; each definition
transcribes the corresponding TypeScript function.
-/

namespace StreamingSession

/-- Convert a string literal to the character-list representation used throughout. -/
def str (s : String) : List Char := s.toList

/-- JavaScript truthiness of an optional string: `undefined`/`null` and `""` are falsy. -/
def truthy : Option (List Char) → Bool
  | none => false
  | some s => !s.isEmpty

/-- The opening reasoning tag matched by the regex in `filterThinkTags`. -/
def openTag : List Char := str "<think>"

/-- The closing reasoning tag matched by the regex in `filterThinkTags`. -/
def closeTag : List Char := str "</think>"

/-- Whitespace characters removed by `String.prototype.trim` (ASCII subset). -/
def isJsWs (c : Char) : Bool :=
  (c = ' ') || (c = '\t') || (c = '\n') || (c = '\r') || (c = '\x0b') || (c = '\x0c')

/-- `trim()`: drop whitespace from both ends. -/
def trimChars (l : List Char) : List Char :=
  ((l.dropWhile isJsWs).reverse.dropWhile isJsWs).reverse

/-- Scan for the first occurrence of `</think>`; on success return the remainder
after it (the regex engine's continuation point). -/
def dropAfterClose : List Char → Option (List Char)
  | [] => none
  | c :: rest =>
    if closeTag.isPrefixOf (c :: rest) then some ((c :: rest).drop closeTag.length)
    else dropAfterClose rest

/-- One left-to-right pass of `content.replace(/<think>[\s\S]*?<\/think>/g, '')`:
at each position, if `<think>` matches here and a `</think>` follows, delete the
lazily-matched segment and continue after it; otherwise keep the character and
advance by one. `fuel` bounds the recursion; any `fuel ≥ l.length` is exact. -/
def removeThinkAux : Nat → List Char → List Char
  | 0, l => l
  | _ + 1, [] => []
  | fuel + 1, c :: rest =>
    if openTag.isPrefixOf (c :: rest) then
      match dropAfterClose ((c :: rest).drop openTag.length) with
      | some after => removeThinkAux fuel after
      | none => c :: removeThinkAux fuel rest
    else c :: removeThinkAux fuel rest

/-- `content.replace(/<think>[\s\S]*?<\/think>/g, '')`. -/
def removeThink (l : List Char) : List Char := removeThinkAux l.length l

/-- `filterThinkTags` from useChat.ts: remove `<think>...</think>` segments, then trim. -/
def filterThinkTags (l : List Char) : List Char := trimChars (removeThink l)

/-- Does the list contain `<think>` as a contiguous substring? -/
def hasOpenTag : List Char → Bool
  | [] => false
  | c :: rest => openTag.isPrefixOf (c :: rest) || hasOpenTag rest

/-- Message roles (lib/types.ts). -/
inductive Role
  | user
  | assistant
deriving DecidableEq, Repr

/-- Feedback sentiment (lib/types.ts). -/
inductive Feedback
  | positive
  | negative
deriving DecidableEq, Repr

/-- `Message` from lib/types.ts, restricted to the fields the session engine reads
or writes (`id`, `role`, `content`, `feedback`, `feedbackNote`, branching counters). -/
structure Message where
  id : Option (List Char)
  role : Role
  content : List Char
  feedback : Option Feedback
  feedbackNote : Option (List Char)
  branch_index : Option Nat
  total_branches : Option Nat
deriving DecidableEq, Repr

/-- A queued outbound send (`pendingMessageRef.current`). -/
structure Pending where
  content : List Char
  projectKey : Option (List Char)
deriving DecidableEq, Repr

/-- `StreamEvent` from lib/types.ts: the tagged wire union, one constructor per
`type` discriminant, carrying the fields the handler reads. -/
inductive StreamEvent
  | init (thread_id : Option (List Char))
  | thinking (content : Option (List Char))
  | stream (content : Option (List Char))
  | content (content : Option (List Char))
  | tool_call (tool : Option (List Char))
  | tool_result
  | insight_start
  | endEvent (user_message_id : Option (List Char)) (assistant_message_id : Option (List Char))
  | error (error : Option (List Char))
deriving DecidableEq, Repr

/-- The mutable state owned by the `useChat` hook (persistent-socket variant):
React state plus the refs (`accumulatedContentRef`, `pendingMessageRef`), the
socket's open flag, the payloads written to the socket, and the error strings
reported via `console.error` in the `error` case. -/
structure ChatState where
  messages : List Message
  isStreaming : Bool
  threadId : Option (List Char)
  streamingContent : List Char
  thinkingContent : List Char
  isThinking : Bool
  currentToolCall : Option (List Char)
  accumulatedContent : List Char
  wsOpen : Bool
  pendingMessage : Option Pending
  sentPayloads : List Pending
  surfacedErrors : List (List Char)
deriving DecidableEq, Repr

/-- The hook's initial state: empty conversation, no thread id, socket not yet open. -/
def initialChatState : ChatState :=
  { messages := [], isStreaming := false, threadId := none, streamingContent := []
    thinkingContent := [], isThinking := false, currentToolCall := none
    accumulatedContent := [], wsOpen := false, pendingMessage := none
    sentPayloads := [], surfacedErrors := [] }

/-- The `end` case's backfill: find the last message with role `user` and, if its
`id` is falsy, set it to `uid` (`lastIndexOf('user')` in the source). -/
def backfillUserId : List Message → List Char → List Message
  | [], _ => []
  | m :: rest, uid =>
    if rest.any (fun x => x.role = Role.user) then m :: backfillUserId rest uid
    else if m.role = Role.user then
      (if truthy m.id then m else { m with id := some uid }) :: rest
    else m :: backfillUserId rest uid

/-- The `ws.onmessage` switch of the persistent-socket `useChat` variant,
transcribed case by case. `insight_start` has no case in this switch and falls
through as a no-op. -/
def handleEvent (s : ChatState) (e : StreamEvent) : ChatState :=
  match e with
  | .init tid =>
    if truthy tid then { s with threadId := tid } else s
  | .thinking c =>
    { s with isThinking := true
             thinkingContent :=
               if truthy c then s.thinkingContent ++ c.getD [] else s.thinkingContent }
  | .stream c | .content c =>
    let s1 := { s with isThinking := false }
    if truthy c then
      { s1 with accumulatedContent := s1.accumulatedContent ++ c.getD []
                streamingContent := s1.accumulatedContent ++ c.getD [] }
    else s1
  | .tool_call t =>
    let s1 := { s with accumulatedContent := [], streamingContent := []
                       isThinking := false, thinkingContent := [] }
    if truthy t then { s1 with currentToolCall := t } else s1
  | .tool_result =>
    { s with currentToolCall := none, isThinking := true }
  | .insight_start => s
  | .endEvent uid aid =>
    let finalContent := s.accumulatedContent
    let s1 := { s with accumulatedContent := [], streamingContent := []
                       isThinking := false, currentToolCall := none, isStreaming := false }
    let filteredContent := filterThinkTags finalContent
    let msgs1 := if truthy uid then backfillUserId s1.messages (uid.getD []) else s1.messages
    let msgs2 :=
      if filteredContent.isEmpty then msgs1
      else msgs1 ++ [{ id := if truthy aid then aid else none, role := Role.assistant
                       content := filteredContent, feedback := none, feedbackNote := none
                       branch_index := none, total_branches := none }]
    { s1 with messages := msgs2 }
  | .error err =>
    { s with currentToolCall := none, isStreaming := false
             surfacedErrors := s.surfacedErrors ++ [err.getD []] }

/-- A fresh user message as built by `sendMessageInternal` (no id yet). -/
def mkUserMessage (content : List Char) : Message :=
  { id := none, role := Role.user, content := content, feedback := none
    feedbackNote := none, branch_index := none, total_branches := none }

/-- `sendMessageInternal`: append the user message optimistically, arm the
streaming/thinking flags, clear the buffers, and write the payload to the socket. -/
def sendMessageInternal (s : ChatState) (content : List Char)
    (projectKey : Option (List Char)) : ChatState :=
  { s with messages := s.messages ++ [mkUserMessage content]
           isStreaming := true, isThinking := true
           thinkingContent := [], streamingContent := []
           currentToolCall := none, accumulatedContent := []
           sentPayloads := s.sentPayloads ++ [{ content := content, projectKey := projectKey }] }

/-- `connect`: close any existing socket and open a fresh one; the new socket is
not yet open (its `onopen` fires later). The pending slot is untouched. -/
def connect (s : ChatState) : ChatState := { s with wsOpen := false }

/-- `sendMessage`: if the socket is open, send at once; otherwise overwrite the
pending slot with this payload and request a connect. -/
def sendMessage (s : ChatState) (content : List Char)
    (projectKey : Option (List Char)) : ChatState :=
  if s.wsOpen then sendMessageInternal s content projectKey
  else connect { s with pendingMessage := some { content := content, projectKey := projectKey } }

/-- `ws.onopen`: mark the socket open, then flush the pending payload (if any)
exactly once, clearing the slot before sending. -/
def onOpen (s : ChatState) : ChatState :=
  let s1 := { s with wsOpen := true }
  match s1.pendingMessage with
  | some p => sendMessageInternal { s1 with pendingMessage := none } p.content p.projectKey
  | none => s1

/-- `stopStreaming`: close the socket and clear the streaming flag and tool
indicator. The text buffers are not touched by this function. -/
def stopStreaming (s : ChatState) : ChatState :=
  { s with wsOpen := false, isStreaming := false, currentToolCall := none }

/-- `loadConversation`: replace messages wholesale (re-filtering stored content),
set the thread id, clear transients, reconnect. -/
def loadConversation (s : ChatState) (newMessages : List Message)
    (newThreadId : List Char) : ChatState :=
  connect { s with
    messages := newMessages.map (fun m => { m with content := filterThinkTags m.content })
    threadId := some newThreadId, streamingContent := [], currentToolCall := none }

/-- The assembler phases named by the design. -/
inductive Phase
  | Idle
  | Thinking
  | Answering
  | ToolCall
deriving DecidableEq, Repr

/-- The phase determined by the hook's flags: not streaming is `Idle`; a recorded
tool call shows `ToolCall`; the thinking flag shows `Thinking`; otherwise `Answering`. -/
def ChatState.phase (s : ChatState) : Phase :=
  if !s.isStreaming then Phase.Idle
  else if s.currentToolCall.isSome then Phase.ToolCall
  else if s.isThinking then Phase.Thinking
  else Phase.Answering

/-- `submitFeedback`: POST the feedback; only when the response is ok, map the
message list, setting `feedback`/`feedbackNote` on the message whose id matches.
A failed call is caught and logged; the list is left as it was. -/
def submitFeedback (s : ChatState) (messageId : List Char) (feedback : Feedback)
    (note : Option (List Char)) (httpOk : Bool) : ChatState :=
  if httpOk then
    { s with messages := s.messages.map (fun m =>
        if m.id = some messageId then { m with feedback := some feedback, feedbackNote := note }
        else m) }
  else s

/-- `switchBranch`, parameterized over the two HTTP responses it awaits: the PUT
switch-branch result and the follow-up conversation fetch. An early return fires
when no thread is loaded. A rejected PUT is caught; the error detail is logged
(second component) and the message list is untouched. Only a successful PUT
followed by a successful fetch replaces `messages` wholesale. -/
def switchBranch (s : ChatState) (putOk : Bool) (putErrDetail : List Char)
    (convResp : Option (List Message)) : ChatState × Option (List Char) :=
  match s.threadId with
  | none => (s, none)
  | some _ =>
    if putOk then
      match convResp with
      | some msgs =>
        ({ s with messages := msgs.map (fun m => { m with content := filterThinkTags m.content }) },
         none)
      | none => (s, none)
    else (s, some putErrDetail)

/-- Modelled from the spec: the backend handler of
`PUT /messages/{id}/switch-branch/{index}` is not part of the available source;
per the spec the server is authoritative and "the server call fails with
InvalidBranch" when `0 <= branchIndex < totalBranches` is violated for the
target message (`totalBranches` defaults to 1). -/
def serverAcceptsSwitch (msgs : List Message) (messageId : List Char)
    (branchIndex : Int) : Bool :=
  match msgs.find? (fun m => m.id = some messageId) with
  | some m => decide (0 ≤ branchIndex ∧ branchIndex < (↑(m.total_branches.getD 1) : Int))
  | none => false

/-- `switchBranch` run against the spec-modelled server: the PUT succeeds exactly
when the server-side branch validation accepts the index. -/
def switchBranchAgainstServer (s : ChatState) (messageId : List Char)
    (branchIndex : Int) (convResp : Option (List Message)) : ChatState × Option (List Char) :=
  switchBranch s (serverAcceptsSwitch s.messages messageId branchIndex)
    (str "InvalidBranch") convResp

/-- The `init` case of the chunked-HTTP (SSE) `useChat` variant:
`if (data.thread_id && !threadId)` — the thread id is assigned only while unset. -/
def chunkedInit (s : ChatState) (tid : Option (List Char)) : ChatState :=
  if truthy tid && !(truthy s.threadId) then { s with threadId := tid } else s

/-- Session state of the insight-aware `useChat` variant: the base hook state
plus the `isInsight` flag that ChatContainer/MessageList consume. -/
structure ChatStateI where
  base : ChatState
  isInsight : Bool
deriving DecidableEq, Repr

/-- Modelled from the spec: the insight-aware `useChat` variant that
ChatContainer destructures (`isInsight`, `toolOutput`) is not among the
available source files — only its `StreamEvent` declaration (which adds the
`insight_start` discriminant) and its consumers are. Per the spec,
`insight_start` "flags the in-progress answer as an insight composition" and the
flag holds "until end"; every other event is handled as in the transcribed
reducer and leaves the flag alone. -/
def handleEventI (s : ChatStateI) (e : StreamEvent) : ChatStateI :=
  { base := handleEvent s.base e
    isInsight :=
      match e with
      | .insight_start => true
      | .endEvent _ _ => false
      | _ => s.isInsight }

/-- The streaming body MessageList renders while `isStreaming`: the insight card
(no content) when `isInsight`, else the markdown of `streamingContent` when
nonempty — transcribed from the ternary in MessageList.tsx. -/
def displayedStreaming (s : ChatStateI) : Option (List Char) :=
  if !s.base.isStreaming then none
  else if s.isInsight then none
  else if s.base.streamingContent.isEmpty then none
  else some s.base.streamingContent

/-- Is the event a `stream` or `content` delta? -/
def isContentDelta : StreamEvent → Bool
  | .stream _ => true
  | .content _ => true
  | _ => false

/-- The event-sequence shape named by the testable property: zero or more
`thinking` events, then zero or more `content` deltas, then an `end` event
carrying an assistant message id. -/
def streamRun (thinks deltas : List (List Char)) (aid : List Char) : List StreamEvent :=
  thinks.map (fun t => StreamEvent.thinking (some t))
    ++ deltas.map (fun d => StreamEvent.content (some d))
    ++ [StreamEvent.endEvent none (some aid)]

/-- The spec's concrete scenario: `init{thread_id:"T1"}`, `content{"Hel"}`,
`content{"lo"}`, `end{assistant_message_id:"A1"}`. -/
def scenarioEvents : List StreamEvent :=
  [StreamEvent.init (some (str "T1")), StreamEvent.content (some (str "Hel")),
   StreamEvent.content (some (str "lo")), StreamEvent.endEvent none (some (str "A1"))]

/-! ### Helper lemmas: `dropWhile`, trimming, tag removal -/

theorem dropWhile_dropWhile (p : Char → Bool) (l : List Char) :
    (l.dropWhile p).dropWhile p = l.dropWhile p := by
  induction l with
  | nil => rfl
  | cons a t ih =>
    by_cases h : p a
    · simpa [List.dropWhile_cons, h] using ih
    · simp [List.dropWhile_cons, h]

theorem dropWhile_eq_cons_head_false (p : Char → Bool) (l : List Char) (c : Char)
    (t : List Char) (h : l.dropWhile p = c :: t) : p c = false := by
  induction l with
  | nil => simp at h
  | cons a l' ih =>
    by_cases ha : p a
    · exact ih (by simpa [List.dropWhile_cons, ha] using h)
    · rw [List.dropWhile_cons, if_neg (by simp [ha])] at h
      cases h
      simpa using ha

theorem dropWhile_append_last_false (p : Char → Bool) (x : List Char) (c : Char)
    (hc : p c = false) : (x ++ [c]).dropWhile p = x.dropWhile p ++ [c] := by
  induction x with
  | nil => simp [List.dropWhile_cons, hc]
  | cons a t ih =>
    by_cases h : p a
    · simpa [List.dropWhile_cons, h] using ih
    · simp [List.dropWhile_cons, h]

theorem dropWhile_trimChars (l : List Char) :
    (trimChars l).dropWhile isJsWs = trimChars l := by
  unfold trimChars
  cases hy : l.dropWhile isJsWs with
  | nil => simp
  | cons c t =>
    have hc : isJsWs c = false := dropWhile_eq_cons_head_false isJsWs l c t hy
    have : (c :: t).reverse = t.reverse ++ [c] := by simp
    rw [this, dropWhile_append_last_false isJsWs t.reverse c hc]
    simp [List.dropWhile_cons, hc]

theorem trimChars_trimChars (l : List Char) : trimChars (trimChars l) = trimChars l := by
  conv_lhs => rw [trimChars, dropWhile_trimChars l]
  simp [trimChars, dropWhile_dropWhile]

theorem removeThinkAux_of_no_tag (fuel : Nat) (l : List Char)
    (h : hasOpenTag l = false) : removeThinkAux fuel l = l := by
  induction fuel generalizing l with
  | zero => rfl
  | succ n ih =>
    cases l with
    | nil => rfl
    | cons c rest =>
      rw [hasOpenTag, Bool.or_eq_false_iff] at h
      rw [removeThinkAux, if_neg (by simp [h.1])]
      rw [ih rest h.2]

theorem removeThink_of_no_tag (l : List Char) (h : hasOpenTag l = false) :
    removeThink l = l :=
  removeThinkAux_of_no_tag l.length l h

/-! ### Helper lemmas: single events and event folds -/

theorem thinking_acc (s : ChatState) (c : Option (List Char)) :
    (handleEvent s (.thinking c)).accumulatedContent = s.accumulatedContent := by
  simp [handleEvent]

theorem thinking_msgs (s : ChatState) (c : Option (List Char)) :
    (handleEvent s (.thinking c)).messages = s.messages := by
  simp [handleEvent]

theorem thinking_tid (s : ChatState) (c : Option (List Char)) :
    (handleEvent s (.thinking c)).threadId = s.threadId := by
  simp [handleEvent]

theorem thinking_think (s : ChatState) (t : List Char) :
    (handleEvent s (.thinking (some t))).thinkingContent = s.thinkingContent ++ t := by
  by_cases h : t = [] <;> simp [handleEvent, truthy, h]

theorem content_acc (s : ChatState) (d : List Char) :
    (handleEvent s (.content (some d))).accumulatedContent = s.accumulatedContent ++ d := by
  by_cases h : d = [] <;> simp [handleEvent, truthy, h]

theorem content_msgs (s : ChatState) (c : Option (List Char)) :
    (handleEvent s (.content c)).messages = s.messages := by
  cases c with
  | none => simp [handleEvent, truthy]
  | some d => by_cases h : d = [] <;> simp [handleEvent, truthy, h]

theorem content_tid (s : ChatState) (c : Option (List Char)) :
    (handleEvent s (.content c)).threadId = s.threadId := by
  cases c with
  | none => simp [handleEvent, truthy]
  | some d => by_cases h : d = [] <;> simp [handleEvent, truthy, h]

theorem content_think (s : ChatState) (c : Option (List Char)) :
    (handleEvent s (.content c)).thinkingContent = s.thinkingContent := by
  cases c with
  | none => simp [handleEvent, truthy]
  | some d => by_cases h : d = [] <;> simp [handleEvent, truthy, h]

theorem foldl_thinking (thinks : List (List Char)) (s : ChatState) :
    ((thinks.map (fun t => StreamEvent.thinking (some t))).foldl handleEvent s).accumulatedContent
        = s.accumulatedContent
    ∧ ((thinks.map (fun t => StreamEvent.thinking (some t))).foldl handleEvent s).thinkingContent
        = s.thinkingContent ++ thinks.flatten
    ∧ ((thinks.map (fun t => StreamEvent.thinking (some t))).foldl handleEvent s).messages
        = s.messages
    ∧ ((thinks.map (fun t => StreamEvent.thinking (some t))).foldl handleEvent s).threadId
        = s.threadId := by
  induction thinks generalizing s with
  | nil => simp
  | cons t ts ih =>
    simp only [List.map_cons, List.foldl_cons]
    obtain ⟨h1, h2, h3, h4⟩ := ih (handleEvent s (.thinking (some t)))
    exact ⟨by rw [h1, thinking_acc],
           by rw [h2, thinking_think]; simp [List.flatten],
           by rw [h3, thinking_msgs],
           by rw [h4, thinking_tid]⟩

theorem foldl_content (deltas : List (List Char)) (s : ChatState) :
    ((deltas.map (fun d => StreamEvent.content (some d))).foldl handleEvent s).accumulatedContent
        = s.accumulatedContent ++ deltas.flatten
    ∧ ((deltas.map (fun d => StreamEvent.content (some d))).foldl handleEvent s).thinkingContent
        = s.thinkingContent
    ∧ ((deltas.map (fun d => StreamEvent.content (some d))).foldl handleEvent s).messages
        = s.messages
    ∧ ((deltas.map (fun d => StreamEvent.content (some d))).foldl handleEvent s).threadId
        = s.threadId := by
  induction deltas generalizing s with
  | nil => simp
  | cons d ds ih =>
    simp only [List.map_cons, List.foldl_cons]
    obtain ⟨h1, h2, h3, h4⟩ := ih (handleEvent s (.content (some d)))
    exact ⟨by rw [h1, content_acc]; simp [List.flatten],
           by rw [h2, content_think],
           by rw [h3, content_msgs],
           by rw [h4, content_tid]⟩

theorem endEvent_fields (s : ChatState) (aid : List Char) (haid : aid ≠ []) :
    ((handleEvent s (.endEvent none (some aid))).messages =
      if (filterThinkTags s.accumulatedContent).isEmpty then s.messages
      else s.messages ++ [{ id := some aid, role := Role.assistant,
                            content := filterThinkTags s.accumulatedContent, feedback := none,
                            feedbackNote := none, branch_index := none, total_branches := none }])
    ∧ (handleEvent s (.endEvent none (some aid))).thinkingContent = s.thinkingContent
    ∧ (handleEvent s (.endEvent none (some aid))).phase = Phase.Idle
    ∧ (handleEvent s (.endEvent none (some aid))).threadId = s.threadId := by
  simp [handleEvent, truthy, haid, ChatState.phase]

theorem foldl_deltas_isInsight (evs : List StreamEvent) (s : ChatStateI)
    (h : ∀ e ∈ evs, isContentDelta e = true) (hi : s.isInsight = true) :
    (evs.foldl handleEventI s).isInsight = true := by
  induction evs generalizing s with
  | nil => exact hi
  | cons e es ih =>
    refine ih (handleEventI s e) (fun x hx => h x (List.mem_cons_of_mem e hx)) ?_
    have he := h e (List.mem_cons_self e es)
    cases e <;> simp_all [handleEventI, isContentDelta]

/-! ### The claims -/

/-- C1 counterexample: the claim states the finalized content equals the delta
concatenation with only the `<think>` segments removed. For deltas `" He"`,
`"llo "` (concatenation `" Hello "`, which contains no reasoning tag, so the
removal leaves it unchanged) the code stores `"Hello"`: `filterThinkTags` also
trims surrounding whitespace, so the stored content differs from the
removal-only result. -/
theorem c1_counterexample :
    (((streamRun [] [str " He", str "llo "] (str "A1")).foldl handleEvent
        (sendMessageInternal initialChatState (str "q") none)).messages.getLast?.map
          Message.content = some (str "Hello"))
    ∧ removeThink (str " He" ++ str "llo ") = str " Hello "
    ∧ str "Hello" ≠ str " Hello " := by
  decide

/-- C1 (amended): for any event sequence `thinking*, content*, end`, the
finalized assistant message content equals the concatenation of all deltas with
every `<think>...</think>` segment removed AND the result trimmed of leading and
trailing whitespace; the message is appended exactly when that filtered content
is nonempty, carrying the assistant id from the `end` event; the accumulated
thinking text is untouched by the removal; and the concrete scenario
`init{"T1"}, content{"Hel"}, content{"lo"}, end{"A1"}` yields the message
`{role: assistant, content:"Hello", id:"A1"}` with `threadId = "T1"` and the
session back in the Idle phase. -/
theorem c1_end_finalizes_filtered_content (s0 : ChatState)
    (thinks deltas : List (List Char)) (aid : List Char)
    (hacc : s0.accumulatedContent = []) (hth : s0.thinkingContent = [])
    (haid : aid ≠ []) :
    ((((streamRun thinks deltas aid).foldl handleEvent s0).messages =
      if (filterThinkTags deltas.flatten).isEmpty then s0.messages
      else s0.messages ++ [{ id := some aid, role := Role.assistant,
                             content := filterThinkTags deltas.flatten, feedback := none,
                             feedbackNote := none, branch_index := none,
                             total_branches := none }])
    ∧ ((streamRun thinks deltas aid).foldl handleEvent s0).thinkingContent = thinks.flatten
    ∧ ((streamRun thinks deltas aid).foldl handleEvent s0).phase = Phase.Idle
    ∧ ((streamRun thinks deltas aid).foldl handleEvent s0).threadId = s0.threadId)
    ∧ ((scenarioEvents.foldl handleEvent initialChatState).messages
        = [{ id := some (str "A1"), role := Role.assistant, content := str "Hello",
             feedback := none, feedbackNote := none, branch_index := none,
             total_branches := none }]
      ∧ (scenarioEvents.foldl handleEvent initialChatState).threadId = some (str "T1")
      ∧ (scenarioEvents.foldl handleEvent initialChatState).phase = Phase.Idle) := by
  have hsplit : (streamRun thinks deltas aid).foldl handleEvent s0
      = handleEvent ((deltas.map (fun d => StreamEvent.content (some d))).foldl handleEvent
          ((thinks.map (fun t => StreamEvent.thinking (some t))).foldl handleEvent s0))
          (StreamEvent.endEvent none (some aid)) := by
    rw [streamRun, List.foldl_append, List.foldl_append]
    rfl
  obtain ⟨t1, t2, t3, t4⟩ := foldl_thinking thinks s0
  obtain ⟨k1, k2, k3, k4⟩ := foldl_content deltas
    ((thinks.map (fun t => StreamEvent.thinking (some t))).foldl handleEvent s0)
  obtain ⟨e1, e2, e3, e4⟩ := endEvent_fields
    ((deltas.map (fun d => StreamEvent.content (some d))).foldl handleEvent
      ((thinks.map (fun t => StreamEvent.thinking (some t))).foldl handleEvent s0)) aid haid
  have hAcc : ((deltas.map (fun d => StreamEvent.content (some d))).foldl handleEvent
      ((thinks.map (fun t => StreamEvent.thinking (some t))).foldl handleEvent
        s0)).accumulatedContent = deltas.flatten := by
    rw [k1, t1, hacc]; simp
  refine ⟨⟨?_, ?_, ?_, ?_⟩, by decide⟩
  · rw [hsplit, e1, hAcc, k3, t3]
  · rw [hsplit, e2, k2, t2, hth]; simp
  · rw [hsplit]; exact e3
  · rw [hsplit, e4, k4, t4]

/-- C1 witness: the amended theorem applied at the fresh session with thinking
delta `"Think"`, content deltas `" He"`, `"llo "` and assistant id `"A1"`. -/
theorem c1_end_finalizes_filtered_content_witness :
    (initialChatState.accumulatedContent = [] ∧ initialChatState.thinkingContent = []
      ∧ str "A1" ≠ ([] : List Char))
    ∧ ((((streamRun [str "Think"] [str " He", str "llo "] (str "A1")).foldl handleEvent
          initialChatState).messages =
        if (filterThinkTags ([str " He", str "llo "] : List (List Char)).flatten).isEmpty
        then initialChatState.messages
        else initialChatState.messages ++
          [{ id := some (str "A1"), role := Role.assistant,
             content := filterThinkTags ([str " He", str "llo "] : List (List Char)).flatten,
             feedback := none, feedbackNote := none, branch_index := none,
             total_branches := none }])
      ∧ ((streamRun [str "Think"] [str " He", str "llo "] (str "A1")).foldl handleEvent
          initialChatState).thinkingContent = ([str "Think"] : List (List Char)).flatten
      ∧ ((streamRun [str "Think"] [str " He", str "llo "] (str "A1")).foldl handleEvent
          initialChatState).phase = Phase.Idle
      ∧ ((streamRun [str "Think"] [str " He", str "llo "] (str "A1")).foldl handleEvent
          initialChatState).threadId = initialChatState.threadId)
    ∧ ((scenarioEvents.foldl handleEvent initialChatState).messages
        = [{ id := some (str "A1"), role := Role.assistant, content := str "Hello",
             feedback := none, feedbackNote := none, branch_index := none,
             total_branches := none }]
      ∧ (scenarioEvents.foldl handleEvent initialChatState).threadId = some (str "T1")
      ∧ (scenarioEvents.foldl handleEvent initialChatState).phase = Phase.Idle) :=
  ⟨⟨rfl, rfl, by decide⟩,
   c1_end_finalizes_filtered_content initialChatState [str "Think"] [str " He", str "llo "]
     (str "A1") rfl rfl (by decide)⟩

/-- C2: for every prior accumulation state, a `tool_call` event resets the
accumulated answer content and the displayed streaming content to empty (for any
tool field), records the tool name when one is present, and a `tool_result`
event leaves both answer buffers exactly as they were. -/
theorem c2_tool_call_resets_answer_buffer (s : ChatState) (tool : Option (List Char))
    (t : List Char) (ht : t ≠ []) :
    ((handleEvent s (.tool_call tool)).accumulatedContent = []
      ∧ (handleEvent s (.tool_call tool)).streamingContent = [])
    ∧ (handleEvent s (.tool_call (some t))).currentToolCall = some t
    ∧ ((handleEvent s .tool_result).accumulatedContent = s.accumulatedContent
      ∧ (handleEvent s .tool_result).streamingContent = s.streamingContent) := by
  refine ⟨⟨?_, ?_⟩, ?_, ?_, ?_⟩
  · rw [handleEvent]; split <;> rfl
  · rw [handleEvent]; split <;> rfl
  · simp [handleEvent, truthy, ht]
  · rfl
  · rfl

/-- C2 witness: the reset theorem applied after accumulating `"Hi"`, with tool
name `"lookup"`. -/
theorem c2_tool_call_resets_answer_buffer_witness :
    (str "lookup" ≠ ([] : List Char))
    ∧ (((handleEvent (handleEvent (sendMessageInternal initialChatState (str "q") none)
          (.content (some (str "Hi")))) (.tool_call (some (str "lookup")))).accumulatedContent
            = []
      ∧ (handleEvent (handleEvent (sendMessageInternal initialChatState (str "q") none)
          (.content (some (str "Hi")))) (.tool_call (some (str "lookup")))).streamingContent
            = [])
    ∧ (handleEvent (handleEvent (sendMessageInternal initialChatState (str "q") none)
        (.content (some (str "Hi")))) (.tool_call (some (str "lookup")))).currentToolCall
          = some (str "lookup")
    ∧ ((handleEvent (handleEvent (sendMessageInternal initialChatState (str "q") none)
          (.content (some (str "Hi")))) .tool_result).accumulatedContent
        = (handleEvent (sendMessageInternal initialChatState (str "q") none)
            (.content (some (str "Hi")))).accumulatedContent
      ∧ (handleEvent (handleEvent (sendMessageInternal initialChatState (str "q") none)
          (.content (some (str "Hi")))) .tool_result).streamingContent
        = (handleEvent (sendMessageInternal initialChatState (str "q") none)
            (.content (some (str "Hi")))).streamingContent)) :=
  ⟨by decide,
   c2_tool_call_resets_answer_buffer
     (handleEvent (sendMessageInternal initialChatState (str "q") none)
       (.content (some (str "Hi"))))
     (some (str "lookup")) (str "lookup") (by decide)⟩

/-- C3 counterexample: in the persistent-socket handler a second `init` carrying
a different thread id is not rejected — after `init{"T1"}` then `init{"T2"}` the
session's `threadId` is `"T2"`, not `"T1"`. -/
theorem c3_counterexample :
    (handleEvent (handleEvent initialChatState (.init (some (str "T1"))))
        (.init (some (str "T2")))).threadId = some (str "T2")
    ∧ some (str "T2") ≠ some (str "T1") := by
  decide

/-- C3 (amended): `threadId` starts `null`; in the persistent-socket handler
every `init` event with a nonempty `thread_id` assigns it, so a later `init`
with a different id overwrites the earlier one (last init wins); only the
chunked-HTTP variant assigns first-wins, ignoring `init` once `threadId` is
set. -/
theorem c3_init_assignment (s : ChatState) (tid t0 : List Char)
    (htid : tid ≠ []) (ht0 : t0 ≠ []) (hset : s.threadId = some t0) :
    initialChatState.threadId = none
    ∧ (handleEvent s (.init (some tid))).threadId = some tid
    ∧ (chunkedInit s (some tid)).threadId = some t0 := by
  refine ⟨rfl, ?_, ?_⟩
  · simp [handleEvent, truthy, htid]
  · simp [chunkedInit, truthy, hset, ht0]

/-- C3 witness: the assignment theorem applied at a session initialized with
`"T1"` receiving `init{"T2"}`. -/
theorem c3_init_assignment_witness :
    (str "T2" ≠ ([] : List Char) ∧ str "T1" ≠ ([] : List Char)
      ∧ (handleEvent initialChatState (.init (some (str "T1")))).threadId = some (str "T1"))
    ∧ (initialChatState.threadId = none
      ∧ (handleEvent (handleEvent initialChatState (.init (some (str "T1"))))
          (.init (some (str "T2")))).threadId = some (str "T2")
      ∧ (chunkedInit (handleEvent initialChatState (.init (some (str "T1"))))
          (some (str "T2"))).threadId = some (str "T1")) :=
  ⟨⟨by decide, by decide, by decide⟩,
   c3_init_assignment (handleEvent initialChatState (.init (some (str "T1"))))
     (str "T2") (str "T1") (by decide) (by decide) (by decide)⟩

/-- C4: with the channel not open, a first `sendMessage` stores its payload as
the single pending send, a second `sendMessage` before the channel opens
overwrites it (last-write-wins), and when the channel opens exactly the second
payload is written to the socket, once, and the pending slot is cleared. -/
theorem c4_pending_send_last_write_wins (s : ChatState) (a1 a2 : List Char)
    (k1 k2 : Option (List Char)) (h : s.wsOpen = false) :
    (sendMessage s a1 k1).pendingMessage = some { content := a1, projectKey := k1 }
    ∧ (sendMessage (sendMessage s a1 k1) a2 k2).pendingMessage
        = some { content := a2, projectKey := k2 }
    ∧ (onOpen (sendMessage (sendMessage s a1 k1) a2 k2)).sentPayloads
        = s.sentPayloads ++ [{ content := a2, projectKey := k2 }]
    ∧ (onOpen (sendMessage (sendMessage s a1 k1) a2 k2)).pendingMessage = none := by
  simp [sendMessage, connect, onOpen, sendMessageInternal, h]

/-- C4 witness: the pending-send theorem applied at the initial (not yet open)
session with payloads `"first"` and `"second"`. -/
theorem c4_pending_send_last_write_wins_witness :
    initialChatState.wsOpen = false
    ∧ ((sendMessage initialChatState (str "first") none).pendingMessage
        = some { content := str "first", projectKey := none }
    ∧ (sendMessage (sendMessage initialChatState (str "first") none)
        (str "second") none).pendingMessage
        = some { content := str "second", projectKey := none }
    ∧ (onOpen (sendMessage (sendMessage initialChatState (str "first") none)
        (str "second") none)).sentPayloads
        = initialChatState.sentPayloads ++ [{ content := str "second", projectKey := none }]
    ∧ (onOpen (sendMessage (sendMessage initialChatState (str "first") none)
        (str "second") none)).pendingMessage = none) :=
  ⟨rfl, c4_pending_send_last_write_wins initialChatState (str "first") (str "second")
    none none rfl⟩

/-- C5 counterexample: the claim states `stopStreaming` immediately clears the
transient buffers. After accumulating the delta `"Hi"` and calling
`stopStreaming`, both the accumulated content and the displayed streaming
content still hold `"Hi"`. -/
theorem c5_counterexample :
    (stopStreaming (handleEvent (sendMessageInternal initialChatState (str "q") none)
        (.content (some (str "Hi"))))).accumulatedContent = str "Hi"
    ∧ (stopStreaming (handleEvent (sendMessageInternal initialChatState (str "q") none)
        (.content (some (str "Hi"))))).streamingContent = str "Hi"
    ∧ str "Hi" ≠ ([] : List Char) := by
  decide

/-- C5 (amended): `stopStreaming` after any amount of accumulation closes the
socket, clears the streaming flag and tool indicator (returning the session to
the Idle phase), and appends no message — the partial answer is never
persisted — but it does NOT clear the text buffers: the accumulated and
displayed content are left as they were (they are only reset by the next send,
`tool_call`, or `end`). -/
theorem c5_stop_streaming_discards (s : ChatState) :
    (stopStreaming s).messages = s.messages
    ∧ (stopStreaming s).phase = Phase.Idle
    ∧ (stopStreaming s).currentToolCall = none
    ∧ (stopStreaming s).wsOpen = false
    ∧ (stopStreaming s).accumulatedContent = s.accumulatedContent
    ∧ (stopStreaming s).streamingContent = s.streamingContent := by
  refine ⟨rfl, ?_, rfl, rfl, rfl, rfl⟩
  simp [stopStreaming, ChatState.phase]

/-- C6: calling `switchBranch` with a branch index outside
`[0, totalBranches)` for the target message makes the (spec-modelled,
authoritative) server reject the PUT; the failure is caught and surfaced as the
logged error detail rather than thrown, and the session — in particular its
message list — is left completely unchanged. -/
theorem c6_switch_branch_invalid_rejected (s : ChatState) (tid mid : List Char)
    (m : Message) (i : Int) (conv : Option (List Message))
    (hth : s.threadId = some tid)
    (hfind : s.messages.find? (fun x => x.id = some mid) = some m)
    (hrange : ¬(0 ≤ i ∧ i < (↑(m.total_branches.getD 1) : Int))) :
    (switchBranchAgainstServer s mid i conv).1 = s
    ∧ (switchBranchAgainstServer s mid i conv).2 = some (str "InvalidBranch") := by
  have hacc : serverAcceptsSwitch s.messages mid i = false := by
    rw [serverAcceptsSwitch, hfind]
    exact decide_eq_false hrange
  rw [switchBranchAgainstServer, hacc]
  constructor <;> simp [switchBranch.eq_def, hth]

/-- C6 witness: the rejection theorem applied at a session holding one message
`"M1"` with two branches, asked to switch to branch index 5. -/
theorem c6_switch_branch_invalid_rejected_witness :
    (({ initialChatState with
          threadId := some (str "T1")
          messages := [{ id := some (str "M1"), role := Role.assistant,
                         content := str "a", feedback := none, feedbackNote := none,
                         branch_index := some 0, total_branches := some 2 }] }
        : ChatState).threadId = some (str "T1")
      ∧ ({ initialChatState with
            threadId := some (str "T1")
            messages := [{ id := some (str "M1"), role := Role.assistant,
                           content := str "a", feedback := none, feedbackNote := none,
                           branch_index := some 0, total_branches := some 2 }] }
          : ChatState).messages.find? (fun x => x.id = some (str "M1"))
          = some { id := some (str "M1"), role := Role.assistant,
                   content := str "a", feedback := none, feedbackNote := none,
                   branch_index := some 0, total_branches := some 2 }
      ∧ ¬((0 : Int) ≤ 5 ∧ (5 : Int) <
            (↑((some 2 : Option Nat).getD 1) : Int)))
    ∧ ((switchBranchAgainstServer
          { initialChatState with
              threadId := some (str "T1")
              messages := [{ id := some (str "M1"), role := Role.assistant,
                             content := str "a", feedback := none, feedbackNote := none,
                             branch_index := some 0, total_branches := some 2 }] }
          (str "M1") 5 (some [])).1
        = { initialChatState with
              threadId := some (str "T1")
              messages := [{ id := some (str "M1"), role := Role.assistant,
                             content := str "a", feedback := none, feedbackNote := none,
                             branch_index := some 0, total_branches := some 2 }] }
      ∧ (switchBranchAgainstServer
          { initialChatState with
              threadId := some (str "T1")
              messages := [{ id := some (str "M1"), role := Role.assistant,
                             content := str "a", feedback := none, feedbackNote := none,
                             branch_index := some 0, total_branches := some 2 }] }
          (str "M1") 5 (some [])).2 = some (str "InvalidBranch")) :=
  ⟨⟨rfl, by decide, by decide⟩,
   c6_switch_branch_invalid_rejected _ (str "T1") (str "M1")
     { id := some (str "M1"), role := Role.assistant, content := str "a",
       feedback := none, feedbackNote := none, branch_index := some 0,
       total_branches := some 2 }
     5 (some []) rfl (by decide) (by decide)⟩

/-- C7 counterexample: the claim states the `error` event clears the accumulated
answer content and the displayed streaming content. After accumulating `"Hi"`
and then receiving `error{"boom"}`, both buffers still hold `"Hi"`. -/
theorem c7_counterexample :
    (handleEvent (handleEvent (sendMessageInternal initialChatState (str "q") none)
        (.content (some (str "Hi")))) (.error (some (str "boom")))).accumulatedContent
      = str "Hi"
    ∧ (handleEvent (handleEvent (sendMessageInternal initialChatState (str "q") none)
        (.content (some (str "Hi")))) (.error (some (str "boom")))).streamingContent
      = str "Hi"
    ∧ str "Hi" ≠ ([] : List Char) := by
  decide

/-- C7 (amended): an `error` event aborts the in-flight generation — it clears
the tool-call indicator and streaming flag, returning the session to the Idle
phase, surfaces the error string (logged, not raised: the handler is a total
function), and appends no message — but it does NOT clear the accumulated
answer content, the displayed streaming content, or the thinking text; those
buffers keep their values until the next send. -/
theorem c7_error_event_aborts (s : ChatState) (e : Option (List Char)) :
    (handleEvent s (.error e)).accumulatedContent = s.accumulatedContent
    ∧ (handleEvent s (.error e)).streamingContent = s.streamingContent
    ∧ (handleEvent s (.error e)).thinkingContent = s.thinkingContent
    ∧ (handleEvent s (.error e)).messages = s.messages
    ∧ (handleEvent s (.error e)).currentToolCall = none
    ∧ (handleEvent s (.error e)).phase = Phase.Idle
    ∧ (handleEvent s (.error e)).surfacedErrors = s.surfacedErrors ++ [e.getD []] := by
  refine ⟨rfl, rfl, rfl, rfl, rfl, ?_, rfl⟩
  simp [handleEvent, ChatState.phase]

/-- C8 counterexample: the claim states that after a failed feedback call the
target message still carries the new feedback values (an un-rolled-back
optimistic update). In the code the update only happens after a successful
response: after a failed call on message `"M1"` its `feedback` is still `none`,
not `positive`. -/
theorem c8_counterexample :
    ((submitFeedback
        { initialChatState with
            messages := [{ id := some (str "M1"), role := Role.assistant,
                           content := str "a", feedback := none, feedbackNote := none,
                           branch_index := none, total_branches := none }] }
        (str "M1") Feedback.positive none false).messages.head?.map Message.feedback)
      = some none
    ∧ (some (none : Option Feedback)) ≠ some (some Feedback.positive) := by
  decide

/-- C8 (amended): `submitFeedback` is not optimistic: the in-place update of the
target message's `feedback`/`feedbackNote` is applied only after the HTTP call
succeeds. When the call fails the session is completely unchanged (there is
nothing to roll back); when it succeeds, exactly the messages whose id matches
are updated and every other message and field stays unchanged. -/
theorem c8_feedback_update_only_on_success (s : ChatState) (mid : List Char)
    (fb : Feedback) (note : Option (List Char)) :
    submitFeedback s mid fb note false = s
    ∧ ∀ i : Nat, (submitFeedback s mid fb note true).messages[i]? =
        (s.messages[i]?).map (fun m =>
          if m.id = some mid then { m with feedback := some fb, feedbackNote := note }
          else m) := by
  refine ⟨rfl, fun i => ?_⟩
  simp [submitFeedback]

/-- C9: once an `insight_start` event flags the in-progress answer as an insight
composition, the flag survives every following sequence of `stream`/`content`
events, and the streaming body MessageList renders stays suppressed — no partial
`streamingContent` is surfaced to the consumer — until the `end` event clears
the flag. -/
theorem c9_insight_suppresses_streaming (s : ChatStateI) (evs : List StreamEvent)
    (h : ∀ e ∈ evs, isContentDelta e = true) :
    (evs.foldl handleEventI (handleEventI s .insight_start)).isInsight = true
    ∧ displayedStreaming (evs.foldl handleEventI (handleEventI s .insight_start)) = none := by
  have h1 : (handleEventI s .insight_start).isInsight = true := rfl
  have h2 := foldl_deltas_isInsight evs (handleEventI s .insight_start) h h1
  refine ⟨h2, ?_⟩
  by_cases hs : (evs.foldl handleEventI (handleEventI s .insight_start)).base.isStreaming <;>
    simp [displayedStreaming, h2, hs]

/-- C9 witness: the suppression theorem applied after `insight_start` followed by
the deltas `"Hi"` and `"!"`. -/
theorem c9_insight_suppresses_streaming_witness :
    (∀ e ∈ [StreamEvent.content (some (str "Hi")), StreamEvent.stream (some (str "!"))],
        isContentDelta e = true)
    ∧ (([StreamEvent.content (some (str "Hi")), StreamEvent.stream (some (str "!"))].foldl
          handleEventI (handleEventI
            { base := sendMessageInternal initialChatState (str "q") none, isInsight := false }
            .insight_start)).isInsight = true
      ∧ displayedStreaming
          ([StreamEvent.content (some (str "Hi")), StreamEvent.stream (some (str "!"))].foldl
            handleEventI (handleEventI
              { base := sendMessageInternal initialChatState (str "q") none, isInsight := false }
              .insight_start)) = none) :=
  ⟨by decide,
   c9_insight_suppresses_streaming
     { base := sendMessageInternal initialChatState (str "q") none, isInsight := false }
     [StreamEvent.content (some (str "Hi")), StreamEvent.stream (some (str "!"))]
     (by decide)⟩

/-- C10 counterexample: `filterThinkTags` is not idempotent. On
`"<th<think></think>ink>abc</think>"` one pass removes the inner
`<think></think>` and splices the remaining text into a fresh
`"<think>abc</think>"`, which a second pass removes entirely. -/
theorem c10_counterexample :
    filterThinkTags (str "<th<think></think>ink>abc</think>")
        = str "<think>abc</think>"
    ∧ filterThinkTags (filterThinkTags (str "<th<think></think>ink>abc</think>"))
        = ([] : List Char)
    ∧ filterThinkTags (filterThinkTags (str "<th<think></think>ink>abc</think>"))
        ≠ filterThinkTags (str "<th<think></think>ink>abc</think>") := by
  decide

/-- C10 (amended): `filterThinkTags` is idempotent on every string whose
filtered result contains no `<think>` occurrence — in particular re-filtering
already-filtered stored content is a no-op in that case — but not in general: a
single removal pass can splice the surrounding text into a new
`<think>...</think>` pair which only the next pass removes. -/
theorem c10_filter_idempotent_when_clean (s : List Char)
    (h : hasOpenTag (filterThinkTags s) = false) :
    filterThinkTags (filterThinkTags s) = filterThinkTags s := by
  show trimChars (removeThink (filterThinkTags s)) = filterThinkTags s
  rw [removeThink_of_no_tag _ h]
  show trimChars (trimChars (removeThink s)) = filterThinkTags s
  rw [trimChars_trimChars]
  rfl

/-- C10 witness: the conditional idempotence applied to
`"  a<think>b</think>c  "`, whose filtered form `"ac"` is tag-free. -/
theorem c10_filter_idempotent_when_clean_witness :
    hasOpenTag (filterThinkTags (str "  a<think>b</think>c  ")) = false
    ∧ filterThinkTags (filterThinkTags (str "  a<think>b</think>c  "))
        = filterThinkTags (str "  a<think>b</think>c  ") :=
  ⟨by decide, c10_filter_idempotent_when_clean (str "  a<think>b</think>c  ") (by decide)⟩

end StreamingSession
